import Mathlib

/-!
Verification of the AgriChain advisory inference pipeline
(`agrichain/services/{weather_service,ml_service,price_service}.py`)
against its natural-language specification.

Shallow embedding conventions:
* Python floats are modelled as exact rationals (`ℚ`); all concrete
  constants used in theorems are chosen so that float and rational
  arithmetic agree.
* Python `round` (banker's rounding, half to even) is `pyRound` /
  `roundTo`; Python `int()` truncation toward zero is `pyTrunc`.
* Calendar dates are modelled as integer day numbers; `today` is an
  explicit parameter (the source calls `date.today()`).
* Module-level configuration read from the environment
  (`USE_REAL_WEATHER`, `OWM_API_KEY`) is passed as explicit parameters.
* The MD5-based `_deterministic_seed(district, date)` helper is a pure
  function of its key string; it is modelled as an explicit function
  parameter `seedFn : String → ℤ → ℚ` (values in `[0,1]`).
* Code that can raise (`ZeroDivisionError`, `NotImplementedError`)
  is modelled with `Option` / `Except`.
* Pure presentation fields (display strings, factor texts, colors kept
  only where a claim can see them) that are string formatting of the
  numeric fields are omitted from the embedded records.
-/

namespace AgriChain

/-! ## Numeric preliminaries -/

/-- Python `round(q)`: round half to even, returning an integer. -/
def pyRound (q : ℚ) : ℤ :=
  let f := ⌊q⌋
  let frac := q - f
  if frac < 1/2 then f
  else if 1/2 < frac then f + 1
  else if f % 2 = 0 then f else f + 1

/-- Python `round(q, n)`: round half to even at `n` decimal digits. -/
def roundTo (q : ℚ) (n : ℕ) : ℚ :=
  (pyRound (q * 10 ^ n) : ℚ) / 10 ^ n

/-- Python `int(q)`: truncation toward zero. -/
def pyTrunc (q : ℚ) : ℤ :=
  if q < 0 then ⌈q⌉ else ⌊q⌋

/-- Arithmetic mean of a list of rationals (callers guarantee nonempty). -/
def listMean (l : List ℚ) : ℚ := l.sum / l.length

/-! ## String preliminaries -/

/-- Python `s.lower()` (character-wise, as the source's ASCII keys need). -/
def pyLower (s : String) : String :=
  ⟨s.data.map Char.toLower⟩

/-- `charsStartWith pre l`: `pre` is a prefix of `l` (as char lists). -/
def charsStartWith : List Char → List Char → Bool
  | [], _ => true
  | _ :: _, [] => false
  | a :: as, b :: bs => a == b && charsStartWith as bs

/-- `charsContain hay needle`: `needle` occurs as a contiguous substring. -/
def charsContain : List Char → List Char → Bool
  | [], n => n.isEmpty
  | h :: t, n => charsStartWith n (h :: t) || charsContain t n

/-- Python `needle in hay` on strings. -/
def strContains (hay needle : String) : Bool :=
  charsContain hay.data needle.data

/-! ## Weather service (`weather_service.py`) -/

/-- One forecast day (`models.schemas.WeatherDay`); `date` is a day number. -/
structure WeatherDay where
  date : ℤ
  temp_max_c : ℚ
  temp_min_c : ℚ
  humidity_pct : ℚ
  rainfall_mm : ℚ
  condition : String
  deriving Repr, DecidableEq

/-- `models.schemas.WeatherForecast`. -/
structure WeatherForecast where
  location : String
  days : List WeatherDay
  avg_temp : ℚ
  avg_humidity : ℚ
  rain_days : ℕ
  deriving Repr, DecidableEq

/-- One month's row of `MONTHLY_PROFILE`. -/
structure MonthProfile where
  tmax : ℚ
  tmin : ℚ
  hum : ℚ
  rain_prob : ℚ
  deriving Repr, DecidableEq

/-- `MONTHLY_PROFILE[m]`; months are `1..12` (the default row is
unreachable: the source indexes with `date.today().month`). -/
def monthlyProfile (m : ℕ) : MonthProfile :=
  if m = 1 then ⟨28, 12, 55, 0.05⟩
  else if m = 2 then ⟨32, 15, 45, 0.05⟩
  else if m = 3 then ⟨37, 19, 35, 0.08⟩
  else if m = 4 then ⟨41, 23, 30, 0.10⟩
  else if m = 5 then ⟨43, 26, 35, 0.15⟩
  else if m = 6 then ⟨35, 25, 75, 0.55⟩
  else if m = 7 then ⟨32, 24, 85, 0.70⟩
  else if m = 8 then ⟨31, 23, 88, 0.65⟩
  else if m = 9 then ⟨32, 23, 78, 0.45⟩
  else if m = 10 then ⟨33, 20, 65, 0.20⟩
  else if m = 11 then ⟨30, 15, 55, 0.08⟩
  else if m = 12 then ⟨27, 11, 50, 0.05⟩
  else ⟨0, 0, 0, 0⟩

/-- `_mock_weather_forecast(district, days)`.  `seedFn` stands for
`_deterministic_seed` (a pure MD5-based function of `district:date`);
`today`/`month` stand for `date.today()` and its month. -/
def mock_weather_forecast (seedFn : String → ℤ → ℚ) (district : String)
    (today : ℤ) (month : ℕ) (days : ℕ) : WeatherForecast :=
  let dist := (pyLower district).trim
  let profile := monthlyProfile month
  let entries : List (WeatherDay × Bool) :=
    (List.range days).map (fun i =>
      let d := today + i
      let seed := seedFn dist d
      let variation := (seed - 0.5) * 6
      let tmax := roundTo (profile.tmax + variation) 1
      let tmin := roundTo (profile.tmin + variation * 0.6) 1
      let hum0 := roundTo (profile.hum + (seed - 0.5) * 20) 1
      let humidity := max 20 (min 100 hum0)
      let is_rain := seed < profile.rain_prob
      let rainfall := if is_rain then roundTo (seed * 25) 1 else 0
      let condition :=
        if is_rain then "rain" else if 70 < humidity then "cloudy" else "sunny"
      (⟨d, tmax, tmin, humidity, rainfall, condition⟩, is_rain))
  let day_entries := entries.map Prod.fst
  let rain_day_count := (entries.filter Prod.snd).length
  let avg_temp := roundTo ((day_entries.map WeatherDay.temp_max_c).sum / days) 1
  let avg_hum := roundTo ((day_entries.map WeatherDay.humidity_pct).sum / days) 1
  ⟨dist.capitalize, day_entries, avg_temp, avg_hum, rain_day_count⟩

/-- `get_weather_forecast(district, days)`.  `useRealApi`/`owmKey` stand for
the module-level `USE_REAL_API` / `OWM_API_KEY` environment values.  The
real-API branch (`_fetch_openweather`) unconditionally raises
`NotImplementedError`, modelled as `Except.error`. -/
def get_weather_forecast (useRealApi : Bool) (owmKey : String)
    (seedFn : String → ℤ → ℚ) (district : String) (today : ℤ) (month : ℕ)
    (days : ℕ) : Except String WeatherForecast :=
  if useRealApi && !owmKey.isEmpty then
    Except.error "Real weather API not yet wired up."
  else
    Except.ok (mock_weather_forecast seedFn district today month days)

/-! ## Crop knowledge base (`ml_service.py`, `CROP_PROFILE`) -/

/-- One entry of `CROP_PROFILE`. -/
structure CropProfile where
  maturity_days : List (String × ℤ)
  ideal_temp_lo : ℚ
  ideal_temp_hi : ℚ
  humidity_tolerance : ℚ
  ideal_soil_moisture : ℚ
  harvest_window_days : ℕ
  perishability : String
  delay_penalty_days : ℤ
  curing_days : ℤ
  deriving Repr, DecidableEq

def tomatoProfile : CropProfile :=
  ⟨[("15days", 15), ("7days", 7), ("ready", 0), ("overdue", -3)],
   18, 28, 65, 60, 4, "high", 4, 0⟩

def wheatProfile : CropProfile :=
  ⟨[("15days", 35), ("7days", 28), ("ready", 0), ("overdue", -5)],
   15, 25, 14, 40, 5, "low", 7, 0⟩

def riceProfile : CropProfile :=
  ⟨[("15days", 20), ("7days", 10), ("ready", 0), ("overdue", -5)],
   20, 32, 75, 70, 5, "low", 6, 2⟩

def onionProfile : CropProfile :=
  ⟨[("15days", 10), ("7days", 5), ("ready", 0), ("overdue", -4)],
   20, 30, 60, 50, 5, "medium", 6, 10⟩

def potatoProfile : CropProfile :=
  ⟨[("15days", 15), ("7days", 8), ("ready", 0), ("overdue", -3)],
   15, 22, 70, 55, 6, "medium", 5, 3⟩

def soybeanProfile : CropProfile :=
  ⟨[("15days", 20), ("7days", 12), ("ready", 0), ("overdue", -5)],
   20, 30, 50, 45, 5, "low", 8, 0⟩

def cottonProfile : CropProfile :=
  ⟨[("15days", 20), ("7days", 10), ("ready", 0), ("overdue", -7)],
   25, 35, 55, 40, 7, "low", 10, 0⟩

def maizeProfile : CropProfile :=
  ⟨[("15days", 18), ("7days", 9), ("ready", 0), ("overdue", -4)],
   18, 30, 60, 55, 5, "medium", 5, 2⟩

/-- The keys of the `CROP_PROFILE` dict, in source order. -/
def CROP_KEYS : List String :=
  ["tomato", "wheat", "rice", "onion", "potato", "soybean", "cotton", "maize"]

/-- The values of the `CROP_PROFILE` dict, in source order. -/
def allProfiles : List CropProfile :=
  [tomatoProfile, wheatProfile, riceProfile, onionProfile, potatoProfile,
   soybeanProfile, cottonProfile, maizeProfile]

/-- `CROP_PROFILE.get(crop.lower(), CROP_PROFILE.get("tomato"))`:
case-insensitive lookup, tomato profile as the documented default. -/
def profileFor (crop : String) : CropProfile :=
  if pyLower crop = "tomato" then tomatoProfile
  else if pyLower crop = "wheat" then wheatProfile
  else if pyLower crop = "rice" then riceProfile
  else if pyLower crop = "onion" then onionProfile
  else if pyLower crop = "potato" then potatoProfile
  else if pyLower crop = "soybean" then soybeanProfile
  else if pyLower crop = "cotton" then cottonProfile
  else if pyLower crop = "maize" then maizeProfile
  else tomatoProfile

/-- `profile["maturity_days"].get(harvest_stage, 7)`. -/
def daysLeft (crop stage : String) : ℤ :=
  ((profileFor crop).maturity_days.lookup stage).getD 7

/-! ## Harvest window prediction (`predict_harvest_window`) -/

/-- The score of a candidate window (`ml_service.py` lines 160-169):
`100 − 2·Σ rainfall − 3·Σ max(0, temp_max − ideal_high)
 − 0.5·Σ max(0, humidity − tolerance)`. -/
def windowScore (p : CropProfile) (ws : List WeatherDay) : ℚ :=
  100 - (ws.map WeatherDay.rainfall_mm).sum * 2
      - (ws.map (fun d => max 0 (d.temp_max_c - p.ideal_temp_hi))).sum * 3
      - (ws.map (fun d => max 0 (d.humidity_pct - p.humidity_tolerance))).sum * 0.5

/-- The candidate window at offset `o`:
`weather.days[start_offset : start_offset + profile["harvest_window_days"]]`. -/
def windowAt (p : CropProfile) (w : List WeatherDay) (o : ℕ) : List WeatherDay :=
  (w.drop o).take p.harvest_window_days

/-- Whether the candidate window at offset `o` is empty
(the `if not window_days: continue` test). -/
def wEmpty (p : CropProfile) (w : List WeatherDay) (o : ℕ) : Bool :=
  (windowAt p w o).isEmpty

/-- The score of the candidate window at offset `o`. -/
def scoreAt (p : CropProfile) (w : List WeatherDay) (o : ℕ) : ℚ :=
  windowScore p (windowAt p w o)

/-- The offsets iterated by
`range(max(0, days_left - 2), min(days_left + 5, 6))` — a half-open
Python range, upper bound excluded. -/
def candOffsets (days_left : ℤ) : List ℕ :=
  (List.range (min (days_left + 5) 6 - (days_left - 2).toNat).toNat).map
    (fun i => (days_left - 2).toNat + i)

/-- Modelled from the spec: the inclusive candidate range
`[max(0, days_left-2), min(days_left+5, horizon-1)]` of section 4.2
(the source iterates a half-open range instead). -/
def specCandOffsets (days_left : ℤ) : List ℕ :=
  (List.range (min (days_left + 5) 6 - (days_left - 2).toNat + 1).toNat).map
    (fun i => (days_left - 2).toNat + i)

/-- One iteration of the search loop (`ml_service.py` lines 155-173), on
the accumulator `(best_score, best offset)`. -/
def searchStep (p : CropProfile) (w : List WeatherDay) (acc : ℚ × ℕ) (o : ℕ) :
    ℚ × ℕ :=
  if wEmpty p w o then acc
  else if acc.1 < scoreAt p w o then (scoreAt p w o, o) else acc

/-- The offset of `best_window_start` relative to `today` after the search
loop; the initial accumulator is `(-999, max(0, days_left))`. -/
def bestStartOffset (p : CropProfile) (days_left : ℤ) (w : List WeatherDay) : ℕ :=
  ((candOffsets days_left).foldl (searchStep p w) (-999, days_left.toNat)).2

/-- The fields of `models.schemas.HarvestWindow` that are not pure string
formatting; dates are day numbers. -/
structure HarvestWindowResult where
  start_date : ℤ
  end_date : ℤ
  days_to_start : ℤ
  days_to_end : ℤ
  urgency : String
  deriving Repr, DecidableEq

/-- `predict_harvest_window` after the profile lookup
(`ml_service.py` lines 148-248, numeric/ordinal fields). -/
def predictHW_core (p : CropProfile) (stage : String) (weather : WeatherForecast)
    (today : ℤ) : HarvestWindowResult :=
  let days_left : ℤ := (p.maturity_days.lookup stage).getD 7
  let best_window_start : ℤ := today + bestStartOffset p days_left weather.days
  let window_end : ℤ := best_window_start + (p.harvest_window_days - 1 : ℤ)
  let days_to_start := best_window_start - today
  let days_to_end := window_end - today
  let urgency :=
    if days_to_start ≤ 3 then "urgent"
    else if days_to_start ≤ 10 then "normal"
    else "plan_ahead"
  ⟨best_window_start, window_end, days_to_start, days_to_end, urgency⟩

/-- `predict_harvest_window(crop, harvest_stage, weather, district)`;
`district` is only used in display strings in the source. -/
def predict_harvest_window (crop stage : String) (weather : WeatherForecast)
    (district : String) (today : ℤ) : HarvestWindowResult :=
  predictHW_core (profileFor crop) stage weather today

/-! ## Spoilage prediction (`predict_spoilage`) -/

/-- `SPOILAGE_CIRCUMFERENCE = 238.76`. -/
def SPOILAGE_CIRCUMFERENCE : ℚ := 238.76

/-- `STORAGE_SPOILAGE_FACTOR.get(storage_type.lower(), 1.0)`. -/
def storageSpoilageFactor (storage_type : String) : ℚ :=
  if pyLower storage_type = "cold" then 0.4
  else if pyLower storage_type = "warehouse" then 0.7
  else if pyLower storage_type = "home" then 1.0
  else if pyLower storage_type = "none" then 1.3
  else 1.0

/-- `PERISHABILITY_BASE_RISK[p]`.  The source indexes without a default
(a `KeyError` is impossible: every profile's perishability is a key);
the `0` default branch is unreachable. -/
def perishabilityBaseRisk (p : String) : ℚ :=
  if p = "high" then 35 else if p = "medium" then 20
  else if p = "low" then 10 else 0

/-- The fields of `models.schemas.SpoilageRisk` that are not pure string
formatting. -/
structure SpoilageRisk where
  risk_pct : ℤ
  risk_level : String
  gauge_offset : ℚ
  deriving Repr, DecidableEq

/-- `predict_spoilage` after the profile lookup
(`ml_service.py` lines 310-373, numeric/categorical fields). -/
def predictSpoilage_core (p : CropProfile) (storage_type : String)
    (weather : WeatherForecast) (transit_hours : ℚ) : SpoilageRisk :=
  let base_risk := perishabilityBaseRisk p.perishability
  let storage_factor := storageSpoilageFactor storage_type
  let temp_penalty : ℚ :=
    if p.perishability = "high" ∨ p.perishability = "medium" then
      max 0 (weather.avg_temp - 30) * 1.5
    else 0
  let hum_penalty := max 0 (weather.avg_humidity - p.humidity_tolerance) * 0.3
  let transit_penalty : ℚ :=
    if p.perishability = "high" then max 0 ((transit_hours - 3) * 2) else 0
  let raw_risk := base_risk * storage_factor + temp_penalty + hum_penalty + transit_penalty
  let risk_pct : ℤ := min 95 (max 5 (pyRound raw_risk))
  let level :=
    if risk_pct < 20 then "Low" else if risk_pct < 45 then "Medium" else "High"
  let gauge_offset := roundTo (SPOILAGE_CIRCUMFERENCE * (1 - (risk_pct : ℚ) / 100)) 2
  ⟨risk_pct, level, gauge_offset⟩

/-- `predict_spoilage(crop, storage_type, weather, transit_hours)`. -/
def predict_spoilage (crop storage_type : String) (weather : WeatherForecast)
    (transit_hours : ℚ) : SpoilageRisk :=
  predictSpoilage_core (profileFor crop) storage_type weather transit_hours

/-- The fixed-threshold band function named by the spec:
`Low` below 20, `Medium` below 45, else `High`. -/
def riskLevelOf (pct : ℤ) : String :=
  if pct < 20 then "Low" else if pct < 45 then "Medium" else "High"

/-! ## Preservation actions (`get_preservation_actions`) -/

/-- One candidate action of `ALL_ACTIONS` (title/detail strings omitted). -/
structure ActionSpec where
  cost : ℕ
  cost_display : String
  effectiveness : ℕ
  spoilage_reduction : ℕ
  deriving Repr, DecidableEq

/-- `ALL_ACTIONS["high_perishability"]`: early-morning harvest, ventilated
crates, pre-cooling, wax coating. -/
def highPerishPool : List ActionSpec :=
  [⟨0, "FREE", 4, 8⟩, ⟨1000, "₹800–1,200", 4, 12⟩,
   ⟨2750, "₹2,500–3,000", 5, 20⟩, ⟨1500, "₹1,200–1,800", 3, 10⟩]

/-- `ALL_ACTIONS["low_perishability"]`: grain drying, HDPE bags, shading. -/
def lowPerishPool : List ActionSpec :=
  [⟨0, "FREE", 5, 15⟩, ⟨500, "₹400–600", 4, 10⟩, ⟨0, "FREE", 3, 8⟩]

/-- `ALL_ACTIONS["medium_perishability"]`: curing, ventilated storage,
sorting and grading. -/
def mediumPerishPool : List ActionSpec :=
  [⟨0, "FREE", 5, 18⟩, ⟨800, "₹600–1,000", 4, 12⟩, ⟨0, "FREE", 3, 8⟩]

/-- The sort key `effectiveness * 10 / (cost + 1)`. -/
def actionKey (a : ActionSpec) : ℚ := a.effectiveness * 10 / (a.cost + 1)

/-- Python's stable `sorted(pool, key=..., reverse=True)`: insertion sort
with "`a` before `b` iff `key b ≤ key a`" keeps the original order on ties. -/
def sortActionsDesc (pool : List ActionSpec) : List ActionSpec :=
  List.insertionSort (fun a b => actionKey b ≤ actionKey a) pool

/-- The fields of `models.schemas.PreservationAction` that are not pure
string formatting. -/
structure PreservationAction where
  rank : ℕ
  rank_class : String
  cost_display : String
  cost_value : ℚ
  effectiveness : ℕ
  spoilage_after : ℤ
  deriving Repr, DecidableEq

/-- The enumerated loop over `pool_sorted[:3]` (`ml_service.py` lines
496-509): `i` is the 0-based loop index and `running` the running residual
spoilage. -/
def buildActions : ℕ → ℤ → List ActionSpec → List PreservationAction
  | _, _, [] => []
  | i, running, a :: rest =>
    let running' := max 5 (running - a.spoilage_reduction)
    ⟨i + 1, (["r1", "r2", "r3"].getD i ""), a.cost_display, a.cost,
     a.effectiveness, running'⟩ :: buildActions (i + 1) running' rest

/-- `get_preservation_actions` after the profile lookup. -/
def getPreservation_core (p : CropProfile) (spoilage_risk : ℤ) :
    List PreservationAction :=
  let pool :=
    if p.perishability = "high" then highPerishPool
    else if p.perishability = "low" then lowPerishPool
    else mediumPerishPool
  buildActions 0 spoilage_risk ((sortActionsDesc pool).take 3)

/-- `get_preservation_actions(crop, storage_type, spoilage_risk)`;
`storage_type` is unused in the source body. -/
def get_preservation_actions (crop storage_type : String) (spoilage_risk : ℤ) :
    List PreservationAction :=
  getPreservation_core (profileFor crop) spoilage_risk

/-! ## Price service (`price_service.py`) -/

/-- `TRANSPORT_RATE_PER_KM = 0.15`. -/
def TRANSPORT_RATE_PER_KM : ℚ := 0.15

/-- One cleaned row of the price dataframe (only the columns the service
reads; `arrival` is a day number from `Arrival_Date`). -/
structure PriceRow where
  State_lower : String
  Market : String
  Commodity_lower : String
  arrival : ℤ
  modal_price : ℚ
  deriving Repr, DecidableEq

/-- `CROP_COMMODITY_MAP.get(crop.lower(), [crop.title()])` followed by
lowercasing (`_commodity_keywords`). -/
def commodityKeywords (crop : String) : List String :=
  (if pyLower crop = "tomato" then ["Tomato"]
   else if pyLower crop = "wheat" then ["Wheat"]
   else if pyLower crop = "rice" then ["Paddy", "Rice"]
   else if pyLower crop = "onion" then ["Onion"]
   else if pyLower crop = "potato" then ["Potato"]
   else if pyLower crop = "soybean" then ["Soyabean", "Soybean"]
   else if pyLower crop = "cotton" then ["Cotton"]
   else if pyLower crop = "maize" then ["Maize"]
   else if pyLower crop = "chickpea" then ["Bengal Gram", "Chickpea"]
   else [crop.capitalize]).map pyLower

/-- `_filter_by_crop`: keep rows whose lowercased commodity contains one of
the keywords (the source joins them into a regex alternation). -/
def filterByCrop (rows : List PriceRow) (crop : String) : List PriceRow :=
  rows.filter (fun r =>
    (commodityKeywords crop).any (fun k => strContains r.Commodity_lower k))

/-- `YIELD_KG_PER_ACRE.get(crop.lower(), YIELD_KG_PER_ACRE["default"])`. -/
def yieldPerAcre (crop : String) : ℚ :=
  if pyLower crop = "tomato" then 8000
  else if pyLower crop = "wheat" then 1500
  else if pyLower crop = "rice" then 1800
  else if pyLower crop = "onion" then 10000
  else if pyLower crop = "potato" then 12000
  else if pyLower crop = "soybean" then 900
  else if pyLower crop = "cotton" then 500
  else if pyLower crop = "maize" then 2000
  else if pyLower crop = "chickpea" then 800
  else 2000

/-- `DISTRICT_MANDI_DISTANCE.get(district.lower(), ...["default"])`,
entries in source (dict insertion) order. -/
def districtDistances (district : String) : List (String × ℚ) :=
  if pyLower district = "nashik" then
    [("Nashik", 15), ("Pune", 210), ("Mumbai", 170), ("Aurangabad", 240)]
  else if pyLower district = "pune" then
    [("Pune", 10), ("Nashik", 210), ("Mumbai", 160), ("Solapur", 240)]
  else if pyLower district = "nagpur" then [("Nagpur", 12), ("Amravati", 150), ("Wardha", 75)]
  else if pyLower district = "amravati" then [("Amravati", 10), ("Nagpur", 150), ("Akola", 110)]
  else if pyLower district = "kolhapur" then [("Kolhapur", 8), ("Pune", 230), ("Sangli", 50)]
  else if pyLower district = "aurangabad" then
    [("Aurangabad", 10), ("Nashik", 240), ("Latur", 200)]
  else if pyLower district = "indore" then [("Indore", 12), ("Bhopal", 195), ("Ujjain", 55)]
  else if pyLower district = "bhopal" then [("Bhopal", 10), ("Indore", 195), ("Sagar", 180)]
  else [("Local APMC", 20), ("Nearest City APMC", 100), ("District HQ APMC", 60)]

/-- `_get_transport_cost(district, market, price_per_kg)`: first distance
entry whose key and the market name contain one another, else the median
distance; `price_per_kg` is unused in the source body. -/
def transportCost (district market : String) (price_per_kg : ℚ) : ℚ :=
  let dist_map := districtDistances district
  match dist_map.find? (fun e =>
      strContains (pyLower market) (pyLower e.1) || strContains (pyLower e.1) (pyLower market)) with
  | some e => roundTo (TRANSPORT_RATE_PER_KM * e.2 / 100) 2
  | none =>
    let km := ((List.insertionSort (fun a b : ℚ => a ≤ b) (dist_map.map Prod.snd)).get?
      (dist_map.length / 2)).getD 0
    roundTo (TRANSPORT_RATE_PER_KM * km / 100) 2

/-- Fixed-point formatting `f"{q:.1f}"` (one decimal digit). -/
def fmt1 (q : ℚ) : String :=
  let n := pyRound (q * 10)
  (if n < 0 then "-" else "") ++ toString (n.natAbs / 10) ++ "." ++ toString (n.natAbs % 10)

/-- `_price_trend(df_crop, market)`.  Pandas `sort_values` is modelled as a
stable sort by arrival date. -/
def priceTrend (df_crop : List PriceRow) (market : String) : String :=
  let sub := df_crop.filter (fun r =>
    strContains (pyLower r.Market) ((pyLower market).take 6))
  if sub.length < 2 then "Insufficient data for trend"
  else
    let sorted := List.insertionSort (fun a b : PriceRow => a.arrival ≤ b.arrival) sub
    let recent := listMean ((sorted.drop (sorted.length - 5)).map PriceRow.modal_price)
    let older :=
      listMean ((sorted.take (max 1 (sorted.length - 5))).map PriceRow.modal_price)
    if older = 0 then "Stable"
    else
      let change_pct := (recent - older) / older * 100
      (if 0 < change_pct then "+" else "") ++ fmt1 change_pct ++ "% recent trend"

/-- The fields of `models.schemas.MarketOption` that are not pure string
formatting. -/
structure MarketOption where
  name : String
  is_best : Bool
  price_per_kg : ℚ
  transport_cost : ℚ
  net_profit : ℚ
  bar_width : ℤ
  profit_color : String
  distance_km : ℚ
  trend : String
  deriving Repr, DecidableEq

/-- One pre-ranking option dict built in the `mkt_agg` loop
(`price_service.py` lines 195-201). -/
structure RawOption where
  market : String
  price_per_kg : ℚ
  transport : ℚ
  net_profit : ℚ
  trend : String
  deriving Repr, DecidableEq

/-- Python's stable `options.sort(key=net_profit, reverse=True)`. -/
def sortOptionsDesc (opts : List RawOption) : List RawOption :=
  List.insertionSort (fun a b => b.net_profit ≤ a.net_profit) opts

/-- `best_profit = options[0]["net_profit"] if options[0]["net_profit"] > 0
else 1` (after sorting); the `[]` case is unreachable at the call site. -/
def effectiveBestProfit (opts : List RawOption) : ℚ :=
  match sortOptionsDesc opts with
  | [] => 1
  | o :: _ => if 0 < o.net_profit then o.net_profit else 1

/-- The ranking tail of `get_market_options` (`price_service.py` lines
203-233): sort descending by net profit, keep the top 3, mark the first
as best and derive the bar width. -/
def rankOptions (district : String) (opts : List RawOption) : List MarketOption :=
  let sorted := sortOptionsDesc opts
  let best_profit := effectiveBestProfit opts
  ((sorted.take 3).enum).map (fun io =>
    let i := io.1
    let o := io.2
    let bar_w : ℤ :=
      if 0 < best_profit then pyTrunc (min 100 (o.net_profit / best_profit * 80 + 20))
      else 40
    { name := o.market, is_best := i == 0, price_per_kg := o.price_per_kg,
      transport_cost := o.transport, net_profit := o.net_profit,
      bar_width := bar_w,
      profit_color :=
        if i = 0 then "var(--leaf)" else if i = 1 then "var(--warn)" else "var(--muted)",
      distance_km := ((districtDistances district).lookup o.market).getD 80,
      trend := o.trend })

/-- Modelled from the spec: the bar-width formula of section 4.3,
`min(100, (profit/best_profit)×80+20)`, clamped to 40 when
`best_profit ≤ 0`; used only to witness the divergence from the source. -/
def specBarWidth (net best : ℚ) : ℚ :=
  if best ≤ 0 then 40 else min 100 (net / best * 80 + 20)

/-- `MOCK_BASE_PRICES.get(crop.lower(), ...["default"])`:
(market, price ₹/kg, transport ₹/kg) benchmark triples. -/
def mockBasePrices (crop : String) : List (String × ℚ × ℚ) :=
  if pyLower crop = "tomato" then
    [("Nashik APMC", 28.5, 2.1), ("Pune APMC", 31.0, 5.8), ("Aurangabad APMC", 24.0, 3.2)]
  else if pyLower crop = "wheat" then
    [("Indore APMC", 21.5, 1.2), ("Bhopal APMC", 20.8, 0.95), ("Local Dealer", 19.8, 0.0)]
  else if pyLower crop = "rice" then
    [("Nagpur APMC", 22.0, 1.8), ("Amravati APMC", 20.5, 1.2), ("Wardha APMC", 19.0, 0.8)]
  else if pyLower crop = "onion" then
    [("Lasalgaon APMC", 18.5, 1.8), ("Nashik APMC", 16.0, 2.1), ("Mumbai Vashi", 20.0, 6.5)]
  else if pyLower crop = "potato" then
    [("Agra APMC", 14.0, 2.0), ("Kanpur APMC", 13.5, 1.6), ("Local Market", 11.0, 0.3)]
  else if pyLower crop = "soybean" then
    [("Indore APMC", 42.0, 1.5), ("Bhopal APMC", 41.5, 1.2), ("Dewas APMC", 40.0, 0.8)]
  else if pyLower crop = "cotton" then
    [("Akola APMC", 65.0, 1.8), ("Amravati APMC", 63.0, 1.5), ("Nagpur APMC", 61.0, 2.2)]
  else if pyLower crop = "maize" then
    [("Davangere APMC", 18.0, 1.4), ("Hubli APMC", 17.5, 1.8), ("Dharwad APMC", 17.0, 1.2)]
  else
    [("Local APMC", 20.0, 1.5), ("District APMC", 19.0, 1.2), ("City Market", 18.0, 2.0)]

/-- The `best_profit` captured from the first fallback entry,
`round((price − transport) × yield_kg, 0)`. -/
def mockBestProfit (crop : String) (yield_kg : ℚ) : ℤ :=
  match mockBasePrices crop with
  | [] => 0
  | (_, price, transport) :: _ => pyRound ((price - transport) * yield_kg)

/-- `_mock_market_options(crop, district, land_size, yield_kg)`.
When the first entry's rounded net profit is 0, the source's
`net_profit / best_profit` raises `ZeroDivisionError`, modelled as `none`;
`land_size` is unused in the source body. -/
def mock_market_options (crop district : String) (land_size yield_kg : ℚ) :
    Option (List MarketOption) :=
  let entries := mockBasePrices crop
  let best_profit : ℚ := (mockBestProfit crop yield_kg : ℚ)
  if best_profit = 0 then none
  else some (entries.enum.map (fun ie =>
    let i := ie.1
    let mkt := ie.2.1
    let price := ie.2.2.1
    let transport := ie.2.2.2
    let net_profit : ℚ := (pyRound ((price - transport) * yield_kg) : ℚ)
    { name := mkt, is_best := i == 0, price_per_kg := price,
      transport_cost := transport, net_profit := net_profit,
      bar_width := pyTrunc (min 100 (net_profit / best_profit * 80 + 20)),
      profit_color :=
        if i = 0 then "var(--leaf)" else if i = 1 then "var(--warn)" else "var(--muted)",
      distance_km := transport / TRANSPORT_RATE_PER_KM * 100,
      trend := if i = 0 then "Seasonal demand rising" else "Stable" }))

/-- Distinct values in first-occurrence order, then sorted ascending —
pandas `groupby` keys (`sort=True`). -/
def groupKeys (rows : List PriceRow) : List String :=
  List.insertionSort (fun a b : String => ¬ b < a)
    (rows.foldl (fun acc r => if r.Market ∈ acc then acc else acc ++ [r.Market]) [])

/-- `groupby("Market")["modal_price"].agg(["mean","count"])` followed by
`nlargest(5, "avg_price")` (stable, ties keep first). -/
def aggregateMarkets (rows : List PriceRow) : List (String × ℚ × ℕ) :=
  let groups := (groupKeys rows).map (fun m =>
    let sub := rows.filter (fun r => r.Market = m)
    (m, listMean (sub.map PriceRow.modal_price), sub.length))
  (List.insertionSort (fun a b : String × ℚ × ℕ => b.2.1 ≤ a.2.1) groups).take 5

/-- The body of the `mkt_agg` loop (`price_service.py` lines 184-201):
per-kg price normalization, transport estimate, net profit and trend. -/
def mkRawOption (df_crop : List PriceRow) (district : String) (yield_kg : ℚ)
    (g : String × ℚ × ℕ) : RawOption :=
  let market_name := g.1
  let avg := g.2.1
  let price0 := roundTo (avg / 100) 2
  let price_per_kg := if price0 < 0.5 then roundTo avg 2 else price0
  let transport := transportCost district market_name price_per_kg
  let net_per_kg := max 0 (price_per_kg - transport)
  let net_profit : ℚ := (pyRound (net_per_kg * yield_kg) : ℚ)
  ⟨market_name, price_per_kg, transport, net_profit, priceTrend df_crop market_name⟩

/-- `get_market_options(crop, state, district, land_size)`; `rows` is the
cleaned price dataframe (`_load_price_df`).  `none` models an uncaught
`ZeroDivisionError` inside the mock fallback. -/
def get_market_options (rows : List PriceRow) (crop state district : String)
    (land_size : ℚ) : Option (List MarketOption) :=
  let df_crop := filterByCrop rows crop
  let yield_kg := land_size * yieldPerAcre crop
  let state_clean := (pyLower state).replace "_" " "
  let df_state := df_crop.filter (fun r =>
    strContains r.State_lower (state_clean.take 6))
  let working := if 2 ≤ df_state.length then df_state else df_crop
  if working.isEmpty then mock_market_options crop district land_size yield_kg
  else
    let options := (aggregateMarkets working).map (mkRawOption df_crop district yield_kg)
    if options.isEmpty then mock_market_options crop district land_size yield_kg
    else some (rankOptions district options)

/-! ## Supporting lemmas -/

/-- Every reachable crop profile has a positive harvest window length. -/
lemma hwd_pos (crop : String) : 1 ≤ (profileFor crop).harvest_window_days := by
  unfold profileFor
  split_ifs <;> decide

/-- A crop whose lowercased name is not a `CROP_PROFILE` key gets the
tomato profile. -/
lemma profileFor_unknown {crop : String} (h : pyLower crop ∉ CROP_KEYS) :
    profileFor crop = tomatoProfile := by
  simp only [CROP_KEYS, List.mem_cons, not_or, List.not_mem_nil,
    not_false_iff, and_true] at h
  unfold profileFor
  split_ifs <;> simp_all

/-- The lookup for the literal key returns the tomato profile. -/
lemma profileFor_tomato : profileFor "tomato" = tomatoProfile := by decide

/-! ## Claim C3 -/

/-- Claim C3: for every crop, storage type, weather forecast, and transit
duration, `predict_spoilage` returns `risk_pct ∈ [5, 95]`, and the returned
`risk_level` is the pure threshold function of `risk_pct` (`Low` below 20,
`Medium` below 45, else `High`). -/
theorem c3_spoilage_bounds_and_level (crop storage_type : String)
    (weather : WeatherForecast) (transit_hours : ℚ) :
    5 ≤ (predict_spoilage crop storage_type weather transit_hours).risk_pct ∧
    (predict_spoilage crop storage_type weather transit_hours).risk_pct ≤ 95 ∧
    (predict_spoilage crop storage_type weather transit_hours).risk_level =
      riskLevelOf (predict_spoilage crop storage_type weather transit_hours).risk_pct := by
  simp only [predict_spoilage, predictSpoilage_core, riskLevelOf]
  refine ⟨?_, ?_, ?_⟩ <;> first | trivial | omega

/-! ## Claim C4 -/

/-- Claim C4: for all crops and harvest stages, `predict_harvest_window`
returns `end_date ≥ start_date` with
`end_date − start_date = harvest_window_days − 1`. -/
theorem c4_harvest_window_length (crop stage : String)
    (weather : WeatherForecast) (district : String) (today : ℤ) :
    (predict_harvest_window crop stage weather district today).start_date ≤
      (predict_harvest_window crop stage weather district today).end_date ∧
    (predict_harvest_window crop stage weather district today).end_date -
      (predict_harvest_window crop stage weather district today).start_date =
      ((profileFor crop).harvest_window_days : ℤ) - 1 := by
  have h1 : 1 ≤ (profileFor crop).harvest_window_days := hwd_pos crop
  simp only [predict_harvest_window, predictHW_core]
  constructor
  · omega
  · ring

/-! ## Claim C1 -/

/-- An empty candidate window leaves the accumulator unchanged. -/
lemma searchStep_eq_of_empty (p : CropProfile) (w : List WeatherDay) (x : ℕ)
    (acc : ℚ × ℕ) (h : wEmpty p w x = true) : searchStep p w acc x = acc := by
  simp [searchStep, h]

/-- A strictly better score replaces the accumulator. -/
lemma searchStep_eq_update (p : CropProfile) (w : List WeatherDay) (x : ℕ)
    (acc : ℚ × ℕ) (h : wEmpty p w x = false) (h2 : acc.1 < scoreAt p w x) :
    searchStep p w acc x = (scoreAt p w x, x) := by
  simp [searchStep, h, h2]

/-- A score that does not strictly improve leaves the accumulator. -/
lemma searchStep_eq_keep (p : CropProfile) (w : List WeatherDay) (x : ℕ)
    (acc : ℚ × ℕ) (h2 : ¬ acc.1 < scoreAt p w x) : searchStep p w acc x = acc := by
  simp [searchStep, h2]

/-- The best score never decreases along the search loop. -/
lemma searchFold_le (p : CropProfile) (w : List WeatherDay) :
    ∀ (l : List ℕ) (s : ℚ) (b : ℕ), s ≤ (l.foldl (searchStep p w) (s, b)).1 := by
  intro l
  induction l with
  | nil => intro s b; simp
  | cons x t ih =>
    intro s b
    rw [List.foldl_cons]
    by_cases he : wEmpty p w x = true
    · rw [searchStep_eq_of_empty p w x (s, b) he]; exact ih s b
    · by_cases hlt : s < scoreAt p w x
      · rw [searchStep_eq_update p w x (s, b) (by simpa using he) hlt]
        exact le_of_lt (lt_of_lt_of_le hlt (ih _ _))
      · rw [searchStep_eq_keep p w x (s, b) hlt]; exact ih s b

/-- After the loop, either the accumulator is untouched, or it holds a
strictly improved score achieved at a visited offset with a nonempty
window. -/
lemma searchFold_cases (p : CropProfile) (w : List WeatherDay) :
    ∀ (l : List ℕ) (s : ℚ) (b : ℕ),
      (l.foldl (searchStep p w) (s, b) = (s, b)) ∨
      ((l.foldl (searchStep p w) (s, b)).2 ∈ l ∧
       wEmpty p w (l.foldl (searchStep p w) (s, b)).2 = false ∧
       scoreAt p w (l.foldl (searchStep p w) (s, b)).2 =
         (l.foldl (searchStep p w) (s, b)).1 ∧
       s < (l.foldl (searchStep p w) (s, b)).1) := by
  intro l
  induction l with
  | nil => intro s b; left; rfl
  | cons x t ih =>
    intro s b
    rw [List.foldl_cons]
    by_cases he : wEmpty p w x = true
    · rw [searchStep_eq_of_empty p w x (s, b) he]
      rcases ih s b with h | ⟨h1, h2, h3, h4⟩
      · left; exact h
      · right; exact ⟨List.mem_cons_of_mem x h1, h2, h3, h4⟩
    · have he' : wEmpty p w x = false := by simpa using he
      by_cases hlt : s < scoreAt p w x
      · rw [searchStep_eq_update p w x (s, b) he' hlt]
        rcases ih (scoreAt p w x) x with h | ⟨h1, h2, h3, h4⟩
        · right
          rw [h]
          exact ⟨List.mem_cons_self x t, he', rfl, hlt⟩
        · right
          exact ⟨List.mem_cons_of_mem x h1, h2, h3, lt_trans hlt h4⟩
      · rw [searchStep_eq_keep p w x (s, b) hlt]
        rcases ih s b with h | ⟨h1, h2, h3, h4⟩
        · left; exact h
        · right; exact ⟨List.mem_cons_of_mem x h1, h2, h3, h4⟩

/-- Every visited offset with a nonempty window scores at most the final
best score. -/
lemma searchFold_max (p : CropProfile) (w : List WeatherDay) :
    ∀ (l : List ℕ) (s : ℚ) (b o : ℕ), o ∈ l → wEmpty p w o = false →
      scoreAt p w o ≤ (l.foldl (searchStep p w) (s, b)).1 := by
  intro l
  induction l with
  | nil => intro s b o h _; exact absurd h (List.not_mem_nil o)
  | cons x t ih =>
    intro s b o ho hoe
    rw [List.foldl_cons]
    rcases List.mem_cons.1 ho with h | h
    · subst h
      by_cases hlt : s < scoreAt p w o
      · rw [searchStep_eq_update p w o (s, b) hoe hlt]
        exact searchFold_le p w t _ _
      · rw [searchStep_eq_keep p w o (s, b) hlt]
        exact le_trans (not_lt.1 hlt) (searchFold_le p w t s b)
    · have := ih (searchStep p w (s, b) o |>.1) (searchStep p w (s, b) o |>.2) o h hoe
      -- the accumulator passed on is whatever `searchStep` produced at `x`
      have := ih (searchStep p w (s, b) x).1 (searchStep p w (s, b) x).2 o h hoe
      simpa using this

/-- On an ascending candidate list, the final best offset is the earliest
offset achieving the final best score (strict improvement keeps the first
maximum). -/
lemma searchFold_earliest (p : CropProfile) (w : List WeatherDay) :
    ∀ (l : List ℕ), l.Pairwise (fun a b : ℕ => a ≤ b) →
      ∀ (s : ℚ) (b o : ℕ), o ∈ l → wEmpty p w o = false →
        scoreAt p w o = (l.foldl (searchStep p w) (s, b)).1 →
        s < (l.foldl (searchStep p w) (s, b)).1 →
        (l.foldl (searchStep p w) (s, b)).2 ≤ o := by
  intro l
  induction l with
  | nil => intro _ s b o ho; exact absurd ho (List.not_mem_nil o)
  | cons x t ih =>
    intro hp s b o ho hoe hsc hlt'
    obtain ⟨hx, hpt⟩ := List.pairwise_cons.1 hp
    rw [List.foldl_cons] at hsc hlt' ⊢
    by_cases he : wEmpty p w x = true
    · rw [searchStep_eq_of_empty p w x (s, b) he] at hsc hlt' ⊢
      rcases List.mem_cons.1 ho with h | h
      · subst h; exact absurd hoe (by simp [he])
      · exact ih hpt s b o h hoe hsc hlt'
    · have he' : wEmpty p w x = false := by simpa using he
      by_cases hlt : s < scoreAt p w x
      · rw [searchStep_eq_update p w x (s, b) he' hlt] at hsc hlt' ⊢
        rcases searchFold_cases p w t (scoreAt p w x) x with hc | ⟨h1, h2, h3, h4⟩
        · rw [hc] at hsc hlt' ⊢
          rcases List.mem_cons.1 ho with h | h
          · subst h; exact le_refl _
          · exact hx o h
        · rcases List.mem_cons.1 ho with h | h
          · subst h; exact absurd hsc (ne_of_lt h4)
          · exact ih hpt (scoreAt p w x) x o h hoe hsc h4
      · rw [searchStep_eq_keep p w x (s, b) hlt] at hsc hlt' ⊢
        rcases List.mem_cons.1 ho with h | h
        · subst h
          exact absurd (hsc ▸ not_lt.1 hlt) (not_le.2 hlt')
        · exact ih hpt s b o h hoe hsc hlt'

/-- The visited offsets are in ascending order. -/
lemma candOffsets_pairwise (dl : ℤ) :
    (candOffsets dl).Pairwise (fun a b : ℕ => a ≤ b) := by
  unfold candOffsets
  exact List.Pairwise.map _ (fun a b h => by omega) (List.pairwise_lt_range _)

/-- The searched offset is a member of the visited range, scores at least
every visited offset whose window is nonempty, and is the earliest offset
achieving that score. -/
def earliestBestCand (p : CropProfile) (dl : ℤ) (w : List WeatherDay) : Prop :=
  bestStartOffset p dl w ∈ candOffsets dl ∧
  (∀ o ∈ candOffsets dl, wEmpty p w o = false →
    scoreAt p w o ≤ scoreAt p w (bestStartOffset p dl w)) ∧
  (∀ o ∈ candOffsets dl, wEmpty p w o = false →
    scoreAt p w o = scoreAt p w (bestStartOffset p dl w) →
    bestStartOffset p dl w ≤ o)

/-- Amended claim C1: the search visits exactly the half-open Python range
`[max(0, days_left−2), min(days_left+5, horizon−1))` — the upper endpoint
is excluded, unlike the inclusive range the spec states — scores each
window as `100 − 2·Σrain − 3·Σexcess-heat − 0.5·Σexcess-humidity`, and,
provided some visited offset has a nonempty window scoring above the
`-999` sentinel, returns the earliest visited offset of maximal score;
`start_date` is `today` plus that offset. -/
theorem c1_search_range_and_argmax (crop stage : String) (w : List WeatherDay)
    (o₀ : ℕ) (h₀ : o₀ ∈ candOffsets (daysLeft crop stage))
    (h₁ : wEmpty (profileFor crop) w o₀ = false)
    (h₂ : (-999 : ℚ) < scoreAt (profileFor crop) w o₀) :
    earliestBestCand (profileFor crop) (daysLeft crop stage) w ∧
    (∀ (loc : String) (a1 a2 : ℚ) (rd : ℕ) (district : String) (today : ℤ),
      (predict_harvest_window crop stage ⟨loc, w, a1, a2, rd⟩ district today).start_date =
        today + bestStartOffset (profileFor crop) (daysLeft crop stage) w) := by
  constructor
  · have hb : bestStartOffset (profileFor crop) (daysLeft crop stage) w =
        ((candOffsets (daysLeft crop stage)).foldl (searchStep (profileFor crop) w)
          (-999, (daysLeft crop stage).toNat)).2 := rfl
    have hmax := searchFold_max (profileFor crop) w (candOffsets (daysLeft crop stage))
      (-999) (daysLeft crop stage).toNat
    have h999 : (-999 : ℚ) <
        ((candOffsets (daysLeft crop stage)).foldl (searchStep (profileFor crop) w)
          (-999, (daysLeft crop stage).toNat)).1 :=
      lt_of_lt_of_le h₂ (hmax o₀ h₀ h₁)
    rcases searchFold_cases (profileFor crop) w (candOffsets (daysLeft crop stage))
        (-999) (daysLeft crop stage).toNat with hc | ⟨h1, h2, h3, _⟩
    · rw [hc] at h999; exact absurd h999 (lt_irrefl _)
    · refine ⟨hb ▸ h1, fun o ho hoe => ?_, fun o ho hoe heq => ?_⟩
      · rw [hb, h3]
        exact hmax o ho hoe
      · rw [hb]
        exact searchFold_earliest (profileFor crop) w _
          (candOffsets_pairwise (daysLeft crop stage)) (-999)
          (daysLeft crop stage).toNat o ho hoe ((hb ▸ heq).trans h3) h999
  · intro loc a1 a2 rd district today; rfl

/-- The concrete 7-day forecast used against C1: heavy rain on days 0-4,
dry on days 5-6 (mild temperatures, moderate humidity; all values exact
in binary floating point, so the Python run agrees). -/
def cexForecastDays : List WeatherDay :=
  [⟨0, 25, 15, 50, 10, "rain"⟩, ⟨1, 25, 15, 50, 10, "rain"⟩,
   ⟨2, 25, 15, 50, 10, "rain"⟩, ⟨3, 25, 15, 50, 10, "rain"⟩,
   ⟨4, 25, 15, 50, 10, "rain"⟩, ⟨5, 25, 15, 50, 0, "sunny"⟩,
   ⟨6, 25, 15, 50, 0, "sunny"⟩]

/-- The six candidate scores over the concrete forecast. -/
lemma cex_scores :
    scoreAt tomatoProfile cexForecastDays 0 = 20 ∧
    scoreAt tomatoProfile cexForecastDays 1 = 20 ∧
    scoreAt tomatoProfile cexForecastDays 2 = 40 ∧
    scoreAt tomatoProfile cexForecastDays 3 = 60 ∧
    scoreAt tomatoProfile cexForecastDays 4 = 80 ∧
    scoreAt tomatoProfile cexForecastDays 5 = 100 := by
  refine ⟨?_, ?_, ?_, ?_, ?_, ?_⟩ <;>
    norm_num [scoreAt, windowAt, windowScore, cexForecastDays, tomatoProfile]

/-- Over the concrete forecast the search settles on offset 4. -/
lemma cex_best0 : bestStartOffset (profileFor "tomato") 0 cexForecastDays = 4 := by
  obtain ⟨h0, h1, h2, h3, h4, -⟩ := cex_scores
  rw [profileFor_tomato]
  simp only [bestStartOffset]
  rw [show candOffsets 0 = [0, 1, 2, 3, 4] from by decide]
  simp only [List.foldl_cons, List.foldl_nil]
  rw [searchStep_eq_update tomatoProfile cexForecastDays 0 ((-999 : ℚ), (0 : ℤ).toNat)
        (by decide) (by rw [h0]; norm_num),
      searchStep_eq_keep tomatoProfile cexForecastDays 1
        (scoreAt tomatoProfile cexForecastDays 0, 0) (by rw [h0, h1]; norm_num),
      searchStep_eq_update tomatoProfile cexForecastDays 2
        (scoreAt tomatoProfile cexForecastDays 0, 0) (by decide)
        (by rw [h0, h2]; norm_num),
      searchStep_eq_update tomatoProfile cexForecastDays 3
        (scoreAt tomatoProfile cexForecastDays 2, 2) (by decide)
        (by rw [h2, h3]; norm_num),
      searchStep_eq_update tomatoProfile cexForecastDays 4
        (scoreAt tomatoProfile cexForecastDays 3, 3) (by decide)
        (by rw [h3, h4]; norm_num)]

/-- Counterexample to C1 as stated: for tomato at stage `ready`
(`days_left = 0`) the code returns offset 4, although offset 5 lies in the
spec's inclusive candidate range `[0, 5]` and scores strictly higher (the
Python `range` excludes its upper bound `min(days_left+5, 6)`, so offset 5
is never evaluated). -/
theorem c1_counterexample :
    (predict_harvest_window "tomato" "ready"
        ⟨"Nashik", cexForecastDays, 25, 50, 5⟩ "nashik" 0).start_date = 4 ∧
    bestStartOffset (profileFor "tomato") (daysLeft "tomato" "ready") cexForecastDays = 4 ∧
    5 ∈ specCandOffsets (daysLeft "tomato" "ready") ∧
    scoreAt (profileFor "tomato") cexForecastDays 4 <
      scoreAt (profileFor "tomato") cexForecastDays 5 := by
  have hdl : daysLeft "tomato" "ready" = 0 := by decide
  refine ⟨?_, ?_, by decide, ?_⟩
  · simp only [predict_harvest_window, predictHW_core]
    rw [show ((profileFor "tomato").maturity_days.lookup "ready").getD 7 = (0:ℤ) from
      by decide]
    rw [cex_best0]
    norm_num
  · rw [hdl]; exact cex_best0
  · rw [profileFor_tomato]
    norm_num [scoreAt, windowAt, windowScore, cexForecastDays, tomatoProfile]

/-- Witness for C1 (amended) at tomato / `ready` over the concrete
forecast, with visited offset 0 as the well-scoring candidate. -/
theorem c1_witness :
    (0 ∈ candOffsets (daysLeft "tomato" "ready")) ∧
    (wEmpty (profileFor "tomato") cexForecastDays 0 = false) ∧
    ((-999 : ℚ) < scoreAt (profileFor "tomato") cexForecastDays 0) ∧
    (earliestBestCand (profileFor "tomato") (daysLeft "tomato" "ready") cexForecastDays ∧
     (∀ (loc : String) (a1 a2 : ℚ) (rd : ℕ) (district : String) (today : ℤ),
       (predict_harvest_window "tomato" "ready"
           ⟨loc, cexForecastDays, a1, a2, rd⟩ district today).start_date =
         today + bestStartOffset (profileFor "tomato") (daysLeft "tomato" "ready")
           cexForecastDays)) :=
  ⟨by decide, by decide,
   by
     rw [profileFor_tomato]
     norm_num [scoreAt, windowAt, windowScore, cexForecastDays, tomatoProfile],
   c1_search_range_and_argmax "tomato" "ready" cexForecastDays 0
     (by decide) (by decide)
     (by
       rw [profileFor_tomato]
       norm_num [scoreAt, windowAt, windowScore, cexForecastDays, tomatoProfile])⟩

/-! ## Claim C5 -/

/-- The loop emits one action per pool element. -/
lemma buildActions_length (l : List ActionSpec) : ∀ (i : ℕ) (run : ℤ),
    (buildActions i run l).length = l.length := by
  induction l with
  | nil => intros; rfl
  | cons a t ih => intro i run; simp [buildActions, ih]

/-- The emitted ranks are consecutive, starting at `i + 1`. -/
lemma buildActions_ranks (l : List ActionSpec) : ∀ (i : ℕ) (run : ℤ),
    (buildActions i run l).map PreservationAction.rank = List.range' (i + 1) l.length := by
  induction l with
  | nil => intros; rfl
  | cons a t ih =>
    intro i run
    simp only [buildActions, List.map_cons, List.length_cons, List.range'_succ, ih]

/-- Every emitted residual is at least the floor of 5. -/
lemma buildActions_after_ge (l : List ActionSpec) : ∀ (i : ℕ) (run : ℤ),
    ∀ x ∈ buildActions i run l, 5 ≤ x.spoilage_after := by
  induction l with
  | nil => intros _ _ x hx; simp [buildActions] at hx
  | cons a t ih =>
    intro i run x hx
    rcases (List.mem_cons).1 hx with h | h
    · subst h; exact le_max_left _ _
    · exact ih _ _ x h

/-- If the incoming residual is already at least 5, the first emitted
residual does not exceed it. -/
lemma buildActions_head_le (l : List ActionSpec) (i : ℕ) (run : ℤ)
    (h : 5 ≤ run) : ∀ y ∈ (buildActions i run l).head?, y.spoilage_after ≤ run := by
  cases l with
  | nil => simp [buildActions]
  | cons a t =>
    intro y hy
    simp only [buildActions, List.head?_cons, Option.mem_def, Option.some.injEq] at hy
    subst hy
    simp only []
    omega

/-- The residual trajectory is monotonically non-increasing. -/
lemma buildActions_chain (l : List ActionSpec) : ∀ (i : ℕ) (run : ℤ),
    (buildActions i run l).Chain'
      (fun a b => b.spoilage_after ≤ a.spoilage_after) := by
  induction l with
  | nil => intros; simp [buildActions]
  | cons a t ih =>
    intro i run
    simp only [buildActions]
    rw [List.chain'_cons']
    refine ⟨fun y hy => ?_, ih _ _⟩
    exact buildActions_head_le t _ _ (le_max_left _ _) y hy

/-- Claim C5: for every crop, storage type, and non-negative spoilage risk,
`get_preservation_actions` returns ranks exactly `1..N`, and the
`spoilage_after` values are non-increasing along the list and never drop
below 5 (each residual is the cumulative effect of the earlier actions). -/
theorem c5_preservation_ranks_monotone (crop storage_type : String)
    (risk : ℤ) (h : 0 ≤ risk) :
    ((get_preservation_actions crop storage_type risk).map PreservationAction.rank =
      List.range' 1 (get_preservation_actions crop storage_type risk).length) ∧
    (∀ x ∈ get_preservation_actions crop storage_type risk, 5 ≤ x.spoilage_after) ∧
    (get_preservation_actions crop storage_type risk).Chain'
      (fun a b => b.spoilage_after ≤ a.spoilage_after) := by
  unfold get_preservation_actions getPreservation_core
  refine ⟨?_, buildActions_after_ge _ _ _, buildActions_chain _ _ _⟩
  rw [buildActions_ranks, buildActions_length]

/-- Witness for C5 at tomato / no storage / risk 30. -/
theorem c5_witness :
    ((0:ℤ) ≤ 30) ∧
    (((get_preservation_actions "tomato" "none" 30).map PreservationAction.rank =
       List.range' 1 (get_preservation_actions "tomato" "none" 30).length) ∧
     (∀ x ∈ get_preservation_actions "tomato" "none" 30, 5 ≤ x.spoilage_after) ∧
     (get_preservation_actions "tomato" "none" 30).Chain'
       (fun a b => b.spoilage_after ≤ a.spoilage_after)) :=
  ⟨by decide, c5_preservation_ranks_monotone "tomato" "none" 30 (by decide)⟩

/-! ## Claims C2, C7, C8: market ranking -/

/-- Every fallback table has exactly three entries. -/
lemma mockBasePrices_three (crop : String) :
    ∃ e1 e2 e3, mockBasePrices crop = [e1, e2, e3] := by
  unfold mockBasePrices
  split_ifs <;> exact ⟨_, _, _, rfl⟩

/-- On the fallback path (with a nonzero rounded best profit, so no
`ZeroDivisionError`), exactly the first of the three options is best. -/
lemma mock_isBest (crop district : String) (ls yk : ℚ)
    (h : mockBestProfit crop yk ≠ 0) :
    (mock_market_options crop district ls yk).map
      (fun l => l.map MarketOption.is_best) = some [true, false, false] := by
  obtain ⟨e1, e2, e3, h3⟩ := mockBasePrices_three crop
  have hc : ¬ ((mockBestProfit crop yk : ℚ) = 0) := by exact_mod_cast h
  simp only [mock_market_options, h3, hc, if_false, if_neg hc]
  simp [List.enum_cons, List.enumFrom]

/-- On the fallback path the option names are the static table's markets,
in table order. -/
lemma mock_names (crop district : String) (ls yk : ℚ)
    (h : mockBestProfit crop yk ≠ 0) :
    (mock_market_options crop district ls yk).map
      (fun l => l.map MarketOption.name) = some ((mockBasePrices crop).map Prod.fst) := by
  obtain ⟨e1, e2, e3, h3⟩ := mockBasePrices_three crop
  have hc : ¬ ((mockBestProfit crop yk : ℚ) = 0) := by exact_mod_cast h
  simp only [mock_market_options, h3, if_neg hc]
  simp [List.enum_cons, List.enumFrom]

/-- The sorted options are pairwise non-increasing in net profit. -/
lemma sortOptionsDesc_sorted (opts : List RawOption) :
    (sortOptionsDesc opts).Pairwise
      (fun a b : RawOption => b.net_profit ≤ a.net_profit) := by
  unfold sortOptionsDesc
  haveI : IsTotal RawOption (fun a b : RawOption => b.net_profit ≤ a.net_profit) :=
    ⟨fun a b => le_total _ _⟩
  haveI : IsTrans RawOption (fun a b : RawOption => b.net_profit ≤ a.net_profit) :=
    ⟨fun _ _ _ h1 h2 => le_trans h2 h1⟩
  exact List.sorted_insertionSort _ _

/-- Enumerated-and-built options beyond position 0 all carry
`is_best = false`. -/
lemma enumFrom_map_isBest (g : ℕ × RawOption → MarketOption)
    (hg : ∀ p : ℕ × RawOption, (g p).is_best = (p.1 == 0)) :
    ∀ (t : List RawOption) (n : ℕ), n ≠ 0 →
      ((t.enumFrom n).map g).map MarketOption.is_best =
        List.replicate t.length false := by
  intro t
  induction t with
  | nil => intros; rfl
  | cons x s ih =>
    intro n hn
    have hb : (n == 0) = false := by simpa using hn
    simp [List.enumFrom, hg, hb, ih (n + 1) (by omega), List.replicate_succ]

/-- An enumerated-and-built nonempty option list has `is_best` exactly at
its head. -/
lemma enum_map_isBest (g : ℕ × RawOption → MarketOption)
    (hg : ∀ p : ℕ × RawOption, (g p).is_best = (p.1 == 0)) (l : List RawOption)
    (hl : l ≠ []) :
    (l.enum.map g).map MarketOption.is_best =
      true :: List.replicate (l.length - 1) false := by
  match l with
  | x :: t =>
    simp [List.enum_cons, hg, enumFrom_map_isBest g hg t 1 one_ne_zero]

/-- Building the final options preserves the net profits, in order. -/
lemma enum_map_net (g : ℕ × RawOption → MarketOption)
    (hg : ∀ p : ℕ × RawOption, (g p).net_profit = p.2.net_profit)
    (l : List RawOption) :
    (l.enum.map g).map MarketOption.net_profit = l.map RawOption.net_profit := by
  rw [List.map_map]
  rw [show (MarketOption.net_profit ∘ g) = (fun p : ℕ × RawOption => p.2.net_profit)
    from funext hg]
  rw [show (fun p : ℕ × RawOption => p.2.net_profit) =
    (RawOption.net_profit ∘ Prod.snd) from rfl]
  rw [← List.map_map]
  simp [List.enum, List.enumFrom_map_snd]

/-- Amended claim C2: the ranking tail of `get_market_options` returns at
most 3 entries, non-strictly descending in net profit (ties cannot be
ruled out), with `is_best` exactly at index 0; the static fallback also
returns exactly 3 entries with `is_best` exactly at index 0, but in the
static table's order, which is not sorted for every crop (see the
counterexample: maize). -/
theorem c2_rank_props :
    (∀ (district : String) (opts : List RawOption), opts ≠ [] →
      ((rankOptions district opts).length ≤ 3 ∧
       (rankOptions district opts).map MarketOption.is_best =
         true :: List.replicate ((rankOptions district opts).length - 1) false ∧
       ((rankOptions district opts).map MarketOption.net_profit).Chain'
         (fun a b : ℚ => b ≤ a))) ∧
    (∀ (crop district : String) (ls yk : ℚ), mockBestProfit crop yk ≠ 0 →
      (mock_market_options crop district ls yk).map
        (fun l => l.map MarketOption.is_best) = some [true, false, false]) := by
  constructor
  · intro district opts hne
    have hlen3 : ((sortOptionsDesc opts).take 3).length ≤ 3 := by
      simp [List.length_take]
    have htne : (sortOptionsDesc opts).take 3 ≠ [] := by
      have h0 : 0 < (sortOptionsDesc opts).length := by
        have := List.length_insertionSort
          (fun a b : RawOption => b.net_profit ≤ a.net_profit) opts
        have hop : 0 < opts.length := List.length_pos.2 hne
        unfold sortOptionsDesc
        omega
      simp only [ne_eq, ← List.length_pos, List.length_take]
      omega
    refine ⟨?_, ?_, ?_⟩
    · simp only [rankOptions, List.length_map, List.enumFrom_length, List.enum]
      exact hlen3
    · simp only [rankOptions]
      rw [enum_map_isBest _ (fun p => rfl) _ htne]
      simp [List.enumFrom_length, List.enum]
    · simp only [rankOptions]
      rw [enum_map_net _ (fun p => rfl)]
      have hp : ((sortOptionsDesc opts).take 3).Pairwise
          (fun a b : RawOption => b.net_profit ≤ a.net_profit) :=
        (sortOptionsDesc_sorted opts).sublist (List.take_sublist 3 _)
      exact (hp.map RawOption.net_profit (fun a b h => h)).chain'
  · exact fun crop district ls yk h => mock_isBest crop district ls yk h

/-- Witness for C2 (amended): the ranking tail on a singleton option list
and the fallback path for wheat at yield 1500 kg. -/
theorem c2_witness :
    (([⟨"A", 10, 1, 9, "t"⟩] : List RawOption) ≠ []) ∧
    ((rankOptions "nashik" [⟨"A", 10, 1, 9, "t"⟩]).length ≤ 3 ∧
     (rankOptions "nashik" [⟨"A", 10, 1, 9, "t"⟩]).map MarketOption.is_best =
       true :: List.replicate
         ((rankOptions "nashik" [⟨"A", 10, 1, 9, "t"⟩]).length - 1) false ∧
     ((rankOptions "nashik" [⟨"A", 10, 1, 9, "t"⟩]).map MarketOption.net_profit).Chain'
       (fun a b : ℚ => b ≤ a)) ∧
    (mockBestProfit "wheat" 1500 ≠ 0) ∧
    ((mock_market_options "wheat" "indore" 1 1500).map
        (fun l => l.map MarketOption.is_best) = some [true, false, false]) := by
  have hne : ([⟨"A", 10, 1, 9, "t"⟩] : List RawOption) ≠ [] := by simp
  have hbp : mockBestProfit "wheat" 1500 ≠ 0 := by
    have hw : pyLower "wheat" = "wheat" := by decide
    have hwheat : mockBasePrices "wheat" =
        [("Indore APMC", (21.5 : ℚ), (1.2 : ℚ)), ("Bhopal APMC", 20.8, 0.95),
         ("Local Dealer", 19.8, 0.0)] := by
      simp [mockBasePrices, hw]
    simp only [mockBestProfit, hwheat]
    norm_num [pyRound]
  exact ⟨hne, c2_rank_props.1 "nashik" _ hne, hbp,
    c2_rank_props.2 "wheat" "indore" 1 1500 hbp⟩

/-- Counterexample to C2 as stated: with no matching price rows, maize
falls back to the static table whose net profits (yield 2000 kg from one
acre) are 33200, 31400, 31600 — not strictly (indeed not even weakly)
descending. -/
theorem c2_counterexample :
    (get_market_options [] "maize" "karnataka" "davangere" 1).map
        (fun l => l.map MarketOption.net_profit) = some [33200, 31400, 31600] ∧
    ¬ (((get_market_options [] "maize" "karnataka" "davangere" 1).getD []).map
        MarketOption.net_profit).Chain' (fun a b : ℚ => b < a) := by
  have hm : pyLower "maize" = "maize" := by decide
  have hget : get_market_options [] "maize" "karnataka" "davangere" 1 =
      mock_market_options "maize" "davangere" 1 (1 * yieldPerAcre "maize") := by
    simp [get_market_options, filterByCrop]
  have hy : (1 : ℚ) * yieldPerAcre "maize" = 2000 := by
    simp [yieldPerAcre, hm]
  have hmaize : mockBasePrices "maize" =
      [("Davangere APMC", (18.0 : ℚ), (1.4 : ℚ)), ("Hubli APMC", 17.5, 1.8),
       ("Dharwad APMC", 17.0, 1.2)] := by
    simp [mockBasePrices, hm]
  have hbp : mockBestProfit "maize" 2000 = 33200 := by
    simp only [mockBestProfit, hmaize]
    norm_num [pyRound]
  have hres : (mock_market_options "maize" "davangere" 1 2000).map
      (fun l => l.map MarketOption.net_profit) = some [33200, 31400, 31600] := by
    have hc : ¬ ((mockBestProfit "maize" 2000 : ℚ) = 0) := by rw [hbp]; norm_num
    simp only [mock_market_options, hmaize, if_neg hc]
    simp only [Option.map_some, List.enum_cons, List.enumFrom, List.map_cons,
      List.map_nil, Option.some.injEq]
    norm_num [pyRound]
  rw [hget, hy]
  refine ⟨hres, ?_⟩
  obtain ⟨l, hl, hmap⟩ := Option.map_eq_some'.1 hres
  rw [hl]
  simp only [Option.getD_some, hmap]
  intro hchain
  have h2 := List.chain'_cons.1 (List.chain'_cons.1 hchain).2
  norm_num at h2

/-- The effective best profit used for bar widths is always positive (the
source replaces a non-positive best by 1), so the `else 40` branch is
dead code. -/
lemma effectiveBestProfit_pos (opts : List RawOption) :
    0 < effectiveBestProfit opts := by
  unfold effectiveBestProfit
  cases h : sortOptionsDesc opts with
  | nil => norm_num
  | cons o t =>
    dsimp only
    split_ifs with h1
    · exact h1
    · norm_num

/-- Amended claim C7: every returned market option's bar width equals
`int(min(100, net_profit / best' × 80 + 20))` where `best'` is the top
net profit when positive and 1 otherwise; the spec's clamp to 40 for
non-positive best profit is unreachable. -/
theorem c7_bar_width (district : String) (opts : List RawOption)
    (m : MarketOption) (hm : m ∈ rankOptions district opts) :
    m.bar_width = pyTrunc (min 100 (m.net_profit / effectiveBestProfit opts * 80 + 20)) := by
  simp only [rankOptions] at hm
  obtain ⟨io, hio, rfl⟩ := List.mem_map.1 hm
  simp only [if_pos (effectiveBestProfit_pos opts)]

/-- The singleton option list used against C7: price 10, transport 10,
net profit 0, so the best net profit is non-positive. -/
def c7zero : List RawOption := [⟨"Local APMC", 10, 10, 0, "Stable"⟩]

/-- Counterexample to C7 as stated: when the best net profit is 0 (≤ 0),
the code emits bar width 20 — `int(min(100, 0/1×80+20))` with the divisor
replaced by 1 — not the spec's clamped 40 (`specBarWidth`). -/
theorem c7_counterexample :
    (rankOptions "nashik" c7zero).map MarketOption.bar_width = [20] ∧
    (rankOptions "nashik" c7zero).map MarketOption.net_profit = [0] ∧
    specBarWidth 0 0 = 40 := by
  have h1 : sortOptionsDesc c7zero = c7zero := by
    simp [sortOptionsDesc, c7zero, List.insertionSort]
  have h2 : effectiveBestProfit c7zero = 1 := by
    rw [effectiveBestProfit, h1]
    norm_num [c7zero]
  refine ⟨?_, ?_, by norm_num [specBarWidth]⟩ <;>
    · simp only [rankOptions]
      rw [h1, h2]
      simp only [c7zero, List.take, List.enum_cons, List.enumFrom,
        List.map_cons, List.map_nil]
      try norm_num [pyTrunc]

/-- The singleton option list used for the C7 witness: net profit 9. -/
def c7opts : List RawOption := [⟨"A", 10, 1, 9, "t"⟩]

/-- The single option built from `c7opts` (bar width
`int(min(100, 9/9×80+20)) = 100`, default distance 80). -/
def c7option : MarketOption :=
  ⟨"A", true, 10, 1, 9, 100, "var(--leaf)", 80, "t"⟩

/-- Witness for C7 (amended) on the singleton list with positive profit. -/
theorem c7_witness :
    c7option ∈ rankOptions "x" c7opts ∧
    c7option.bar_width =
      pyTrunc (min 100 (c7option.net_profit / effectiveBestProfit c7opts * 80 + 20)) := by
  have h1 : sortOptionsDesc c7opts = c7opts := by
    simp [sortOptionsDesc, c7opts, List.insertionSort]
  have h2 : effectiveBestProfit c7opts = 9 := by
    rw [effectiveBestProfit, h1]
    norm_num [c7opts]
  have hmem : c7option ∈ rankOptions "x" c7opts := by
    simp only [rankOptions]
    rw [h1, h2]
    simp only [c7opts, List.take, List.enum_cons, List.enumFrom,
      List.map_cons, List.map_nil]
    rw [show (List.lookup "A" (districtDistances "x")).getD 80 = (80 : ℚ) from by decide]
    rw [show (if (0:ℚ) < 9 then pyTrunc (min 100 ((9:ℚ) / 9 * 80 + 20)) else 40) = 100
      from by norm_num [pyTrunc]]
    simp [c7option]
  exact ⟨hmem, c7_bar_width "x" c7opts c7option hmem⟩

/-- Amended claim C8: when the price table has zero rows matching the
crop, `get_market_options` returns the static fallback's 3 entries (their
names in table order, `is_best` exactly at index 0) — provided the
fallback's first net profit does not round to 0; when it does round to 0
(tiny land sizes), the source instead raises `ZeroDivisionError` (see the
counterexample). -/
theorem c8_fallback (rows : List PriceRow) (crop state district : String)
    (land_size : ℚ) (hempty : filterByCrop rows crop = [])
    (hbest : mockBestProfit crop (land_size * yieldPerAcre crop) ≠ 0) :
    (get_market_options rows crop state district land_size).map
        (fun l => l.map MarketOption.is_best) = some [true, false, false] ∧
    (get_market_options rows crop state district land_size).map
        (fun l => l.map MarketOption.name) =
      some ((mockBasePrices crop).map Prod.fst) := by
  have hget : get_market_options rows crop state district land_size =
      mock_market_options crop district land_size (land_size * yieldPerAcre crop) := by
    simp [get_market_options, hempty]
  rw [hget]
  exact ⟨mock_isBest _ _ _ _ hbest, mock_names _ _ _ _ hbest⟩

/-- Counterexample to C8 as stated: for potato on a miniscule (but
validation-passing) land size of 10⁻⁶ acre, yield is 0.012 kg, the best
fallback profit `round((14−2)×0.012) = round(0.144)` is 0, and the bar
width computation divides by zero — `ZeroDivisionError`, modelled as
`none`, instead of the promised 3 fallback entries. -/
theorem c8_counterexample :
    get_market_options [] "potato" "uttar pradesh" "agra" (1 / 1000000) = none := by
  have hp : pyLower "potato" = "potato" := by decide
  have hget : get_market_options [] "potato" "uttar pradesh" "agra" (1 / 1000000) =
      mock_market_options "potato" "agra" (1 / 1000000)
        ((1 / 1000000) * yieldPerAcre "potato") := by
    simp [get_market_options, filterByCrop]
  have hy : ((1 : ℚ) / 1000000) * yieldPerAcre "potato" = 3 / 250 := by
    simp [yieldPerAcre, hp]
    norm_num
  have hpot : mockBasePrices "potato" =
      [("Agra APMC", (14.0 : ℚ), (2.0 : ℚ)), ("Kanpur APMC", 13.5, 1.6),
       ("Local Market", 11.0, 0.3)] := by
    simp [mockBasePrices, hp]
  have hbp : mockBestProfit "potato" (3 / 250) = 0 := by
    simp only [mockBestProfit, hpot]
    norm_num [pyRound]
  rw [hget, hy]
  simp [mock_market_options, hbp]

/-- Witness for C8 (amended) at tomato with an empty price table and one
acre (best fallback profit 211200 ≠ 0). -/
theorem c8_witness :
    (filterByCrop [] "tomato" = []) ∧
    (mockBestProfit "tomato" (1 * yieldPerAcre "tomato") ≠ 0) ∧
    ((get_market_options [] "tomato" "maharashtra" "nashik" 1).map
        (fun l => l.map MarketOption.is_best) = some [true, false, false] ∧
     (get_market_options [] "tomato" "maharashtra" "nashik" 1).map
        (fun l => l.map MarketOption.name) =
       some ((mockBasePrices "tomato").map Prod.fst)) := by
  have ht : pyLower "tomato" = "tomato" := by decide
  have hy : (1 : ℚ) * yieldPerAcre "tomato" = 8000 := by
    simp [yieldPerAcre, ht]
  have htom : mockBasePrices "tomato" =
      [("Nashik APMC", (28.5 : ℚ), (2.1 : ℚ)), ("Pune APMC", 31.0, 5.8),
       ("Aurangabad APMC", 24.0, 3.2)] := by
    simp [mockBasePrices, ht]
  have hbest : mockBestProfit "tomato" (1 * yieldPerAcre "tomato") ≠ 0 := by
    rw [hy]
    simp only [mockBestProfit, htom]
    norm_num [pyRound]
  exact ⟨rfl, hbest, c8_fallback [] "tomato" "maharashtra" "nashik" 1 rfl hbest⟩

/-! ## Claim C9 -/

/-- Claim C9: a crop name absent from the knowledge base gets the tomato
profile, and the three prediction entry points return exactly what they
return for `"tomato"` (in particular they complete, with no error path). -/
theorem c9_unknown_crop_defaults (crop : String) (h : pyLower crop ∉ CROP_KEYS) :
    profileFor crop = tomatoProfile ∧
    (∀ stage weather district today,
      predict_harvest_window crop stage weather district today =
        predict_harvest_window "tomato" stage weather district today) ∧
    (∀ storage_type weather transit,
      predict_spoilage crop storage_type weather transit =
        predict_spoilage "tomato" storage_type weather transit) ∧
    (∀ storage_type risk,
      get_preservation_actions crop storage_type risk =
        get_preservation_actions "tomato" storage_type risk) := by
  have hp := profileFor_unknown h
  refine ⟨hp, ?_, ?_, ?_⟩ <;> intros <;>
    simp only [predict_harvest_window, predict_spoilage, get_preservation_actions,
      hp, profileFor_tomato]

/-- Witness for C9 at the spec's example crop `"dragonfruit"`. -/
theorem c9_witness :
    (pyLower "dragonfruit" ∉ CROP_KEYS) ∧
    (profileFor "dragonfruit" = tomatoProfile ∧
     (∀ stage weather district today,
       predict_harvest_window "dragonfruit" stage weather district today =
         predict_harvest_window "tomato" stage weather district today) ∧
     (∀ storage_type weather transit,
       predict_spoilage "dragonfruit" storage_type weather transit =
         predict_spoilage "tomato" storage_type weather transit) ∧
     (∀ storage_type risk,
       get_preservation_actions "dragonfruit" storage_type risk =
         get_preservation_actions "tomato" storage_type risk)) :=
  ⟨by decide, c9_unknown_crop_defaults "dragonfruit" (by decide)⟩

/-! ## Claim C10 -/

/-- Claim C10: the mock forecast is a pure function of (district, current
date): two calls with the same district and the same current calendar date
(hence the same month) yield identical forecasts.  `seedFn` models the
MD5-based `_deterministic_seed`, itself a pure function of its
`district:date` key string. -/
theorem c10_mock_weather_deterministic (seedFn : String → ℤ → ℚ)
    (d1 d2 : String) (t1 t2 : ℤ) (m1 m2 n : ℕ)
    (hd : d1 = d2) (ht : t1 = t2) (hm : m1 = m2) :
    mock_weather_forecast seedFn d1 t1 m1 n =
      mock_weather_forecast seedFn d2 t2 m2 n := by
  subst hd; subst ht; subst hm; rfl

/-- Witness for C10 at a concrete district and date. -/
theorem c10_witness :
    mock_weather_forecast (fun _ _ => 0.5) "nashik" 20000 6 7 =
      mock_weather_forecast (fun _ _ => 0.5) "nashik" 20000 6 7 :=
  c10_mock_weather_deterministic (fun _ _ => 0.5) "nashik" "nashik"
    20000 20000 6 6 7 rfl rfl rfl

/-! ## Claim C6 -/

/-- Counterexample to C6: with the real backend selected
(`USE_REAL_WEATHER=true`) and no credential (`OWM_API_KEY=""`),
`get_weather_forecast` silently returns the mock forecast — it does not
fail with any error. -/
theorem c6_counterexample :
    get_weather_forecast true "" (fun _ _ => 0) "nashik" 0 1 7 =
      Except.ok (mock_weather_forecast (fun _ _ => 0) "nashik" 0 1 7) := rfl

/-- Amended C6: when the real backend is selected but the credential is
empty, `get_weather_forecast` silently falls back to the mock forecast;
only when a non-empty key is also present does it reach
`_fetch_openweather`, which raises `NotImplementedError` (there is no
`DataUnavailable` error). -/
theorem c6_real_api_fallback (owmKey : String) (seedFn : String → ℤ → ℚ)
    (district : String) (today : ℤ) (month days : ℕ) :
    (get_weather_forecast true "" seedFn district today month days =
      Except.ok (mock_weather_forecast seedFn district today month days)) ∧
    (owmKey.isEmpty = false →
      get_weather_forecast true owmKey seedFn district today month days =
        Except.error "Real weather API not yet wired up.") := by
  constructor
  · rfl
  · intro h
    simp [get_weather_forecast, h]

/-- Witness for C6 (amended) with a non-empty key. -/
theorem c6_witness :
    ("key".isEmpty = false) ∧
    (get_weather_forecast true "" (fun _ _ => 0.5) "pune" 10 3 7 =
      Except.ok (mock_weather_forecast (fun _ _ => 0.5) "pune" 10 3 7)) ∧
    (get_weather_forecast true "key" (fun _ _ => 0.5) "pune" 10 3 7 =
      Except.error "Real weather API not yet wired up.") :=
  ⟨by decide,
   (c6_real_api_fallback "key" (fun _ _ => 0.5) "pune" 10 3 7).1,
   (c6_real_api_fallback "key" (fun _ _ => 0.5) "pune" 10 3 7).2 (by decide)⟩

end AgriChain
